import Mathlib

/-!
Verification of the WeaveAI retrieval-augmented answer pipeline.

This file gives a shallow embedding, in Lean 4, of the core functions of
the repository: the RAG pipeline (src/rag_pipeline.py) and the document
store manager (src/document_processor.py).  Python floats are modelled as
rationals; Python dictionaries produced by json.loads are modelled by an
inductive JSON type; fallible Python code is modelled in the Except monad,
where an uncaught Python exception corresponds to an Except.error result.
Library calls that are external to the repository (json.loads, the httpx
POST, the langchain text splitter, the sentence-transformer embedder,
uuid4, and the chromadb collection) are passed in as explicit parameters
or modelled as explicit state, so each embedded function is a pure,
executable function of its inputs.
-/

namespace WeaveAI

/-- JSON values, as produced by the Python json.loads function. -/
inductive Json where
  | null : Json
  | bool (b : Bool) : Json
  | num (q : ℚ) : Json
  | str (s : String) : Json
  | arr (elements : List Json) : Json
  | obj (fields : List (String × Json)) : Json

/-- Metadata stored with every chunk, as built in process_and_store_document. -/
structure Metadata where
  document_id : String
  filename : String
  chunk_index : Nat
  total_chunks : Nat
  file_path : String
deriving DecidableEq, Repr, Inhabited

/-- The three parallel lists returned by DocumentProcessor.search_documents. -/
structure SearchResults where
  documents : List String
  metadatas : List Metadata
  distances : List ℚ

/-- One entry of the sources list built by RAGPipeline._prepare_sources. -/
structure SourceInfo where
  filename : String
  chunk_index : Nat
  total_chunks : Nat
  relevance_score : ℚ
deriving DecidableEq, Repr, Inhabited

/-- Python round(x, 3): round to 3 decimal places.  Python rounds exact
ties to the even digit; this model rounds ties up.  The two conventions
agree everywhere except at exact multiples of 1/2000, and no behaviour
verified below exercises such a tie. -/
def round3 (q : ℚ) : ℚ := (⌊q * 1000 + 1 / 2⌋ : ℚ) / 1000

/-- RAGPipeline._calculate_confidence from src/rag_pipeline.py. -/
def calculate_confidence (distances : List ℚ) : ℚ :=
  if distances = [] then 0
  else
    let avg_distance := distances.sum / (distances.length : ℚ)
    let confidence := max 0 (min 1 (1 - avg_distance / 2))
    round3 confidence

/-- RAGPipeline._prepare_sources from src/rag_pipeline.py.  The loop
enumerates the metadata list; the relevance score reads distances[i]
when it exists and falls back to 0.0 otherwise. -/
def prepare_sources (metadatas : List Metadata) (distances : List ℚ) :
    List SourceInfo :=
  metadatas.enum.map fun p =>
    { filename := p.2.filename
      chunk_index := p.2.chunk_index
      total_chunks := p.2.total_chunks
      relevance_score :=
        if p.1 < distances.length then round3 (1 - distances.getD p.1 0 / 2)
        else 0 }

/-- RAGPipeline._prepare_context from src/rag_pipeline.py.  The loop
enumerates the retrieved documents and indexes the metadata list at the
same position; the blocks are joined with single newlines. -/
def prepare_context (documents : List String) (metadatas : List Metadata) :
    String :=
  String.intercalate "\n" (documents.enum.map fun p =>
    "Document: " ++ (metadatas.getD p.1 default).filename ++
    "\nContent: " ++ p.2 ++ "\n---")

/-- One suggestion bundle built by RAGPipeline.suggest_auto_enrichment. -/
structure EnrichmentSuggestion where
  missing_topic : String
  suggested_sources : List String
  search_queries : List String
deriving DecidableEq, Repr

/-- RAGPipeline.suggest_auto_enrichment from src/rag_pipeline.py. -/
def suggest_auto_enrichment (missing_info : List String) (query : String) :
    List EnrichmentSuggestion :=
  if missing_info = [] then []
  else
    missing_info.map fun info =>
      { missing_topic := info
        suggested_sources :=
          [ "Search for \x27" ++ info ++ "\x27 in academic papers",
            "Look up \x27" ++ info ++ "\x27 in industry documentation",
            "Find recent articles about \x27" ++ info ++ "\x27" ]
        search_queries :=
          [ info ++ " " ++ query,
            info ++ " best practices",
            info ++ " latest research" ] }

/-- Python subscripting result[key] as performed inside the try block of
_call_openai_with_completeness_check: a KeyError on a missing key and a
TypeError on a non-dict value; both are caught by the except clause. -/
def Json.item : Json → String → Except String Json
  | .obj fields, key =>
      match fields.find? (fun f => f.1 == key) with
      | some f => .ok f.2
      | none => .error ("KeyError: " ++ key)
  | _, key => .error ("TypeError: value is not subscriptable by key " ++ key)

/-- Python subscripting value[i] on what should be the choices list. -/
def Json.index : Json → Nat → Except String Json
  | .arr elements, i =>
      match elements.get? i with
      | some x => .ok x
      | none => .error "IndexError: list index out of range"
  | _, _ => .error "TypeError: value is not subscriptable by index"

/-- Python json.loads requires a str argument; a TypeError otherwise. -/
def Json.asString : Json → Except String String
  | .str s => .ok s
  | _ => .error "TypeError: the JSON object must be str, bytes or bytearray"

/-- Python dict.get(key, default) as used by generate_answer on the value
returned from _call_openai_with_completeness_check.  On a non-dict value
the attribute lookup itself raises AttributeError, and generate_answer
has no handler for it. -/
def Json.pyGet : Json → String → Json → Except String Json
  | .obj fields, key, dflt =>
      .ok (match fields.find? (fun f => f.1 == key) with
           | some f => f.2
           | none => dflt)
  | _, _, _ => .error "AttributeError: object has no attribute get"

/-- Outcome of the httpx POST to the chat-completions endpoint: either the
request itself raised an exception, or a response arrived carrying a
status code and a body text. -/
inductive HttpOutcome where
  | exn (msg : String)
  | resp (status : Nat) (text : String)

/-- The error value built in the non-200 branch of
_call_openai_with_completeness_check. -/
def apiErrorResponse (status : Nat) (text : String) : Json :=
  .obj [("answer", .str ("Error calling OpenAI API: " ++ toString status ++
                         " - " ++ text)),
        ("missing_info", .arr [.str "API call failed"]),
        ("enrichment_suggestions",
         .arr [.str "Check API configuration and try again"])]

/-- The error value built in the except clause of
_call_openai_with_completeness_check. -/
def systemErrorResponse (msg : String) : Json :=
  .obj [("answer", .str ("Error generating response: " ++ msg)),
        ("missing_info", .arr [.str "System error occurred"]),
        ("enrichment_suggestions",
         .arr [.str "Check system configuration and try again"])]

/-- The body of the try block in the 200 branch: parse the response body
(response.json()), extract result choices 0 message content, and parse
that content string with json.loads.  The loads parameter stands for the
Python json library; any step may raise, and the except clause catches it. -/
def extractContent (loads : String → Except String Json) (text : String) :
    Except String Json := do
  let result ← loads text
  let choices ← result.item "choices"
  let first ← choices.index 0
  let message ← first.item "message"
  let content ← message.item "content"
  let contentStr ← content.asString
  loads contentStr

/-- RAGPipeline._call_openai_with_completeness_check from
src/rag_pipeline.py.  The query and context only shape the request
payload, whose outcome is the outcome parameter; the function itself
never raises: every exception inside the try block is converted to the
system-error value. -/
def call_openai_with_completeness_check (loads : String → Except String Json)
    (_query _context : String) (outcome : HttpOutcome) : Json :=
  match outcome with
  | .exn msg => systemErrorResponse msg
  | .resp status text =>
      if status = 200 then
        match extractContent loads text with
        | .ok parsed => parsed
        | .error e => systemErrorResponse e
      else
        apiErrorResponse status text

/-- The dictionary returned by RAGPipeline.generate_answer.  The answer,
missing_info and enrichment_suggestions fields are taken from the parsed
completion value and can be arbitrary JSON. -/
structure QueryResult where
  answer : Json
  confidence : ℚ
  missing_info : Json
  enrichment_suggestions : Json
  sources : List SourceInfo

/-- RAGPipeline.generate_answer from src/rag_pipeline.py.  The search
results stand for the value returned by search_documents, and the
outcome parameter for the HTTP call issued in stage 3.  The three
dict.get calls on the stage-3 value are the only fallible steps. -/
def generate_answer (loads : String → Except String Json) (query : String)
    (sr : SearchResults) (outcome : HttpOutcome) : Except String QueryResult :=
  if sr.documents = [] then
    .ok { answer := .str
            "I don\x27t have any relevant documents to answer your question."
          confidence := 0
          missing_info :=
            .arr [.str "No relevant documents found in the knowledge base"]
          enrichment_suggestions :=
            .arr [.str "Upload documents related to your query",
                  .str "Try rephrasing your question with different keywords"]
          sources := [] }
  else do
    let context := prepare_context sr.documents sr.metadatas
    let response := call_openai_with_completeness_check loads query context outcome
    let confidence := calculate_confidence sr.distances
    let sources := prepare_sources sr.metadatas sr.distances
    let answer ← response.pyGet "answer" (.str "")
    let missing_info ← response.pyGet "missing_info" (.arr [])
    let enrichment_suggestions ← response.pyGet "enrichment_suggestions" (.arr [])
    .ok { answer := answer
          confidence := confidence
          missing_info := missing_info
          enrichment_suggestions := enrichment_suggestions
          sources := sources }

/-- Python str.strip(): remove leading and trailing whitespace.  Defined
structurally on the character list so that it evaluates by kernel
reduction. -/
def pyStrip (s : String) : String :=
  ⟨(((s.data.dropWhile Char.isWhitespace).reverse.dropWhile
      Char.isWhitespace).reverse)⟩

/-- One record of the chromadb collection: the id, embedding, document
text and metadata stored together by collection.add. -/
structure StoredChunk where
  id : String
  embedding : List ℚ
  document : String
  metadata : Metadata
deriving DecidableEq, Repr

/-- The dictionary returned by process_and_store_document. -/
inductive IngestResult where
  | success (document_id : String) (filename : String) (total_chunks : Nat)
  | error (filename : String) (error : String)
deriving DecidableEq, Repr

/-- DocumentProcessor.process_and_store_document from
src/document_processor.py.  The chunk_text parameter stands for the
langchain text splitter, generate_embeddings for the sentence-transformer
model, document_id for the value of uuid.uuid4(), extracted for the
outcome of extract_text_from_file, and the store for the chromadb
collection, to which collection.add appends all chunks in one call. -/
def process_and_store_document (chunk_text : String → List String)
    (generate_embeddings : List String → List (List ℚ))
    (document_id : String) (extracted : Except String String)
    (store : List StoredChunk) (file_path filename : String) :
    IngestResult × List StoredChunk :=
  match extracted with
  | .error e => (.error filename e, store)
  | .ok text =>
      if pyStrip text = "" then
        (.error filename "No text content found in the document", store)
      else
        let chunks := chunk_text text
        if chunks = [] then
          (.error filename "No chunks generated from the document", store)
        else
          let embeddings := generate_embeddings chunks
          let chunk_ids :=
            (List.range chunks.length).map fun i =>
              document_id ++ "_" ++ toString i
          let metadatas :=
            (List.range chunks.length).map fun i =>
              ({ document_id := document_id
                 filename := filename
                 chunk_index := i
                 total_chunks := chunks.length
                 file_path := file_path } : Metadata)
          let new_chunks :=
            (List.range chunks.length).map fun i =>
              ({ id := chunk_ids.getD i ""
                 embedding := embeddings.getD i []
                 document := chunks.getD i ""
                 metadata := metadatas.getD i default } : StoredChunk)
          (.success document_id filename chunks.length, store ++ new_chunks)

/-- The dictionary returned by delete_document. -/
inductive DeleteResult where
  | success (message : String) (deleted_chunks : Nat) (filename : String)
  | error (error : String)
deriving DecidableEq, Repr

/-- DocumentProcessor.delete_document from src/document_processor.py.
The collection.get call with a where filter is the filter over the
store; file_exists and remove_ok stand for os.path.exists and the
success of os.remove, whose failure the code swallows with a bare pass. -/
def delete_document (store : List StoredChunk) (document_id : String)
    (file_exists : String → Bool) (remove_ok : String → Bool) :
    DeleteResult × List StoredChunk :=
  let results := store.filter (fun c => c.metadata.document_id == document_id)
  if results = [] then
    (.error "Document not found", store)
  else
    let filename :=
      match results with
      | [] => "Unknown"
      | c :: _ => c.metadata.filename
    let chunk_count := results.length
    let store2 :=
      store.filter (fun c => !(c.metadata.document_id == document_id))
    let file_path :=
      match results with
      | [] => ""
      | c :: _ => c.metadata.file_path
    let _removed :=
      if file_path ≠ "" && file_exists file_path then remove_ok file_path
      else false
    (.success ("Document \x27" ++ filename ++ "\x27 deleted successfully")
       chunk_count filename,
     store2)

/-- One element of the chunks list rebuilt by get_all_documents. -/
structure DocChunkRef where
  chunk_index : Nat
  total_chunks : Nat
deriving DecidableEq, Repr

/-- One per-document entry built by get_all_documents. -/
structure DocEntry where
  document_id : String
  filename : String
  total_chunks : Nat
  file_path : String
  chunks : List DocChunkRef
deriving DecidableEq, Repr

/-- The entry created when a document id is first seen, with the chunk of
the current metadata already appended. -/
def newEntry (m : Metadata) : DocEntry :=
  { document_id := m.document_id
    filename := m.filename
    total_chunks := m.total_chunks
    file_path := m.file_path
    chunks := [⟨m.chunk_index, m.total_chunks⟩] }

/-- Appending the chunk of one metadata to an existing entry. -/
def pushChunk (e : DocEntry) (m : Metadata) : DocEntry :=
  { e with chunks := e.chunks ++ [⟨m.chunk_index, m.total_chunks⟩] }

/-- One iteration of the grouping loop of get_all_documents: the Python
dict keyed by document_id, insertion ordered, is an entry list updated in
place at the first entry with the same id. -/
def updateEntry : List DocEntry → Metadata → List DocEntry
  | [], m => [newEntry m]
  | e :: rest, m =>
      if e.document_id = m.document_id then pushChunk e m :: rest
      else e :: updateEntry rest m

/-- The grouping loop of get_all_documents over all stored metadata. -/
def groupDocuments (metas : List Metadata) : List DocEntry :=
  metas.foldl updateEntry []

/-- The dictionary returned by get_all_documents. -/
structure AllDocumentsResult where
  documents : List DocEntry
  total_documents : Nat
  total_chunks : Nat
deriving Repr

/-- DocumentProcessor.get_all_documents from src/document_processor.py.
The metas parameter stands for the metadata list returned by
collection.get; the document list is sorted by filename with the stable
Python list sort. -/
def get_all_documents (metas : List Metadata) : AllDocumentsResult :=
  let document_list :=
    (groupDocuments metas).mergeSort fun a b => decide (a.filename ≤ b.filename)
  { documents := document_list
    total_documents := document_list.length
    total_chunks := metas.length }

/-- The chunk references of one document, read off the full metadata list
in store order: the reconstruction get_all_documents is meant to return. -/
def chunksFor (metas : List Metadata) (id : String) : List DocChunkRef :=
  (metas.filter (fun m => m.document_id == id)).map fun m =>
    ⟨m.chunk_index, m.total_chunks⟩

/-- Python dict.get(key, default) on a plain field list: the value at the
first matching key, or the default. -/
def dictGetD (fields : List (String × Json)) (key : String) (dflt : Json) :
    Json :=
  match fields.find? (fun f => f.1 == key) with
  | some f => f.2
  | none => dflt

/-- C2: for every non-empty distance list the confidence equals
clamp(1 - avgDistance/2, 0, 1) rounded to 3 decimals; distances [0, 0]
give 1.0, [2, 2] give 0.0, [1] gives 0.5, and the empty list gives 0.0. -/
theorem C2_confidence_formula :
    (∀ ds : List ℚ, ds ≠ [] →
      calculate_confidence ds =
        round3 (max 0 (min 1 (1 - (ds.sum / (ds.length : ℚ)) / 2)))) ∧
    calculate_confidence [0, 0] = 1 ∧
    calculate_confidence [2, 2] = 0 ∧
    calculate_confidence [1] = 1 / 2 ∧
    calculate_confidence [] = 0 := by
  have hgen : ∀ ds : List ℚ, ds ≠ [] →
      calculate_confidence ds =
        round3 (max 0 (min 1 (1 - (ds.sum / (ds.length : ℚ)) / 2))) := by
    intro ds h
    simp [calculate_confidence, h]
  refine ⟨hgen, ?_, ?_, ?_, ?_⟩
  · rw [hgen [0, 0] (by simp)]
    norm_num [round3]
  · rw [hgen [2, 2] (by simp)]
    norm_num [round3]
  · rw [hgen [1] (by simp)]
    norm_num [round3]
  · simp [calculate_confidence]

/-- Witness for C2 at the concrete non-empty distance list [1]. -/
theorem C2_confidence_formula_witness :
    calculate_confidence [1] =
      round3 (max 0 (min 1 (1 - (([1] : List ℚ).sum / (([1] : List ℚ).length : ℚ)) / 2))) :=
  C2_confidence_formula.1 [1] (by simp)

/-- C9: suggest_auto_enrichment is a pure function of its inputs: the
empty missing-topics list yields the empty list, and otherwise exactly
one suggestion bundle per topic, in input order, each built solely by
string templating from that topic and the query. -/
theorem C9_auto_enrichment (missing_info : List String) (query : String) :
    suggest_auto_enrichment [] query = [] ∧
    (suggest_auto_enrichment missing_info query).map (fun s => s.missing_topic)
      = missing_info ∧
    suggest_auto_enrichment missing_info query =
      missing_info.map (fun info =>
        { missing_topic := info
          suggested_sources :=
            [ "Search for \x27" ++ info ++ "\x27 in academic papers",
              "Look up \x27" ++ info ++ "\x27 in industry documentation",
              "Find recent articles about \x27" ++ info ++ "\x27" ]
          search_queries :=
            [ info ++ " " ++ query,
              info ++ " best practices",
              info ++ " latest research" ] }) := by
  refine ⟨rfl, ?_, ?_⟩
  · cases missing_info with
    | nil => simp [suggest_auto_enrichment]
    | cons a l =>
      simp only [suggest_auto_enrichment, List.map_cons, List.map_map]
      rw [if_neg (List.cons_ne_nil a l)]
      simp only [List.map_cons, List.map_map]
      show a :: List.map (fun info : String => info) l = a :: l
      rw [List.map_id']
  · cases missing_info with
    | nil => simp [suggest_auto_enrichment]
    | cons a l => simp [suggest_auto_enrichment]

/-- C3: with zero retrieval hits, generate_answer returns the fixed
no-relevant-documents result, with confidence 0, empty sources, one
canned missing-info entry and two canned enrichment suggestions, and the
result never depends on the completion endpoint, which is not called. -/
theorem C3_no_hits_short_circuit (loads loads2 : String → Except String Json)
    (query query2 : String) (sr : SearchResults)
    (outcome outcome2 : HttpOutcome) (h : sr.documents = []) :
    generate_answer loads query sr outcome =
      .ok { answer := .str
              "I don\x27t have any relevant documents to answer your question."
            confidence := 0
            missing_info :=
              .arr [.str "No relevant documents found in the knowledge base"]
            enrichment_suggestions :=
              .arr [.str "Upload documents related to your query",
                    .str "Try rephrasing your question with different keywords"]
            sources := [] } ∧
    generate_answer loads query sr outcome =
      generate_answer loads2 query2 sr outcome2 := by
  constructor
  · simp [generate_answer, h]
  · simp [generate_answer, h]

/-- Witness for C3 at an empty search result, with two different
completion outcomes on the two sides. -/
theorem C3_no_hits_short_circuit_witness :
    generate_answer (fun _ => .error "unreachable") "what is WeaveAI"
        { documents := [], metadatas := [], distances := [] } (.exn "down") =
      .ok { answer := .str
              "I don\x27t have any relevant documents to answer your question."
            confidence := 0
            missing_info :=
              .arr [.str "No relevant documents found in the knowledge base"]
            enrichment_suggestions :=
              .arr [.str "Upload documents related to your query",
                    .str "Try rephrasing your question with different keywords"]
            sources := [] } :=
  (C3_no_hits_short_circuit (fun _ => .error "unreachable")
    (fun _ => .ok .null) "what is WeaveAI" "other question"
    { documents := [], metadatas := [], distances := [] }
    (.exn "down") (.resp 200 "body") rfl).1

/-- The index-based block list of _prepare_context agrees with the
zip-based reading whenever the metadata list is long enough. -/
theorem enumFrom_getD_zip (f : String → String → String)
    (metadatas : List Metadata) :
    ∀ (documents : List String) (n : Nat),
      n + documents.length ≤ metadatas.length →
      ((documents.enumFrom n).map fun p =>
          f (metadatas.getD p.1 default).filename p.2) =
        ((documents.zip (metadatas.drop n)).map fun p =>
          f p.2.filename p.1) := by
  intro documents
  induction documents with
  | nil => intro n h; simp
  | cons d ds ih =>
    intro n h
    have hn : n < metadatas.length := by
      simp only [List.length_cons] at h; omega
    rw [List.enumFrom_cons, List.drop_eq_getElem_cons hn]
    simp only [List.map_cons, List.zip_cons_cons]
    congr 1
    · rw [List.getD_eq_getElem?_getD, List.getElem?_eq_getElem hn,
        Option.getD_some]
    · exact ih (n + 1) (by simp only [List.length_cons] at h; omega)

/-- C7: for hit lists with matching lengths, the assembled context is the
concatenation, in retrieval order, of one block per hit of the exact form
Document: filename, newline, Content: text, newline, three dashes, with
the blocks joined by single newlines and nothing deduplicated, reordered
or truncated. -/
theorem C7_context_assembly (documents : List String)
    (metadatas : List Metadata) (_hne : documents ≠ [])
    (hlen : documents.length = metadatas.length) :
    prepare_context documents metadatas =
      String.intercalate "\n" ((documents.zip metadatas).map fun p =>
        "Document: " ++ p.2.filename ++ "\nContent: " ++ p.1 ++ "\n---") := by
  have hz := enumFrom_getD_zip
    (fun fn doc => "Document: " ++ fn ++ "\nContent: " ++ doc ++ "\n---")
    metadatas documents 0 (by omega)
  unfold prepare_context
  rw [show documents.enum = documents.enumFrom 0 from rfl, hz,
    List.drop_zero]

/-- Witness for C7 at a concrete two-hit search result. -/
theorem C7_context_assembly_witness :
    prepare_context ["alpha text", "beta text"]
        [{ document_id := "d1", filename := "a.txt", chunk_index := 0,
           total_chunks := 2, file_path := "u/a.txt" },
         { document_id := "d1", filename := "a.txt", chunk_index := 1,
           total_chunks := 2, file_path := "u/a.txt" }] =
      String.intercalate "\n"
        (((["alpha text", "beta text"] : List String).zip
            [({ document_id := "d1", filename := "a.txt", chunk_index := 0,
                total_chunks := 2, file_path := "u/a.txt" } : Metadata),
             { document_id := "d1", filename := "a.txt", chunk_index := 1,
               total_chunks := 2, file_path := "u/a.txt" }]).map fun p =>
          "Document: " ++ p.2.filename ++ "\nContent: " ++ p.1 ++ "\n---") :=
  C7_context_assembly ["alpha text", "beta text"] _ (by simp) (by simp)

/-- C4: source attribution emits one record per hit, in retrieval order,
carrying the filename, chunk index and total chunks of the metadata of
the hit and the relevance score round3(1 - distance/2), and this score is
not clamped: at distance 3 it is the negative value -1/2. -/
theorem C4_sources_unclamped (metadatas : List Metadata)
    (distances : List ℚ) (h : metadatas.length = distances.length) :
    ((prepare_sources metadatas distances).length = metadatas.length ∧
     ∀ i, i < metadatas.length →
       (prepare_sources metadatas distances).getD i default =
         { filename := (metadatas.getD i default).filename
           chunk_index := (metadatas.getD i default).chunk_index
           total_chunks := (metadatas.getD i default).total_chunks
           relevance_score := round3 (1 - distances.getD i 0 / 2) }) ∧
    prepare_sources
        [{ document_id := "d1", filename := "far.txt", chunk_index := 0,
           total_chunks := 1, file_path := "u/far.txt" }] [3] =
      [{ filename := "far.txt", chunk_index := 0, total_chunks := 1,
         relevance_score := -(1 / 2) }] ∧
    (-(1 / 2) : ℚ) < 0 := by
  refine ⟨⟨?_, ?_⟩, ?_, by norm_num⟩
  · simp [prepare_sources]
  · intro i hi
    have hd : i < distances.length := h ▸ hi
    have hmd : metadatas.getD i default = metadatas[i] := by
      rw [List.getD_eq_getElem?_getD, List.getElem?_eq_getElem hi,
        Option.getD_some]
    rw [List.getD_eq_getElem?_getD]
    unfold prepare_sources
    rw [List.getElem?_map, List.getElem?_enum,
      List.getElem?_eq_getElem hi]
    simp [hmd, hd, List.getElem?_eq_getElem hi]
  · simp only [prepare_sources, List.enum_cons, List.enumFrom_nil,
      List.map_cons, List.map_nil]
    norm_num [round3]

/-- Witness for C4 at a concrete one-hit search result. -/
theorem C4_sources_unclamped_witness :
    (prepare_sources
        [{ document_id := "d1", filename := "a.txt", chunk_index := 0,
           total_chunks := 1, file_path := "u/a.txt" }] [1]).length = 1 :=
  (C4_sources_unclamped
    [{ document_id := "d1", filename := "a.txt", chunk_index := 0,
       total_chunks := 1, file_path := "u/a.txt" }] [1] (by simp)).1.1

/-- With at least one hit, generate_answer is determined by the value the
completion stage returns: a dict value is unpacked with dict.get and the
pipeline returns normally, while any non-dict value makes the first
dict.get raise AttributeError. -/
theorem generate_answer_eq (loads : String → Except String Json)
    (query : String) (sr : SearchResults) (outcome : HttpOutcome)
    (hne : sr.documents ≠ []) :
    generate_answer loads query sr outcome =
      match call_openai_with_completeness_check loads query
          (prepare_context sr.documents sr.metadatas) outcome with
      | .obj fields =>
          .ok { answer := dictGetD fields "answer" (.str "")
                confidence := calculate_confidence sr.distances
                missing_info := dictGetD fields "missing_info" (.arr [])
                enrichment_suggestions :=
                  dictGetD fields "enrichment_suggestions" (.arr [])
                sources := prepare_sources sr.metadatas sr.distances }
      | _ => .error "AttributeError: object has no attribute get" := by
  unfold generate_answer
  rw [if_neg hne]
  cases hj : call_openai_with_completeness_check loads query
      (prepare_context sr.documents sr.metadatas) outcome with
  | null => simp only [hj, Json.pyGet]; rfl
  | bool b => simp only [hj, Json.pyGet]; rfl
  | num q => simp only [hj, Json.pyGet]; rfl
  | str s => simp only [hj, Json.pyGet]; rfl
  | arr elements => simp only [hj, Json.pyGet]; rfl
  | obj fields => simp only [hj, Json.pyGet, dictGetD]; rfl

/-- C1 (amended): with at least one hit, a network exception, a non-200
response, or a 200 response whose body fails content extraction or JSON
parsing all degrade gracefully to an ok Query Result whose answer is a
diagnostic error string and whose missing_info is the canned API-call or
system-error entry; and whenever the extracted content parses as a JSON
object the pipeline also returns ok.  (The original claim, that no
exception ever escapes for any body whatsoever, fails when the content
parses as a non-object JSON value; see the counterexample.) -/
theorem C1_completion_failure_degrades (loads : String → Except String Json)
    (query : String) (sr : SearchResults) (hne : sr.documents ≠ []) :
    (∀ msg, generate_answer loads query sr (.exn msg) =
      .ok { answer := .str ("Error generating response: " ++ msg)
            confidence := calculate_confidence sr.distances
            missing_info := .arr [.str "System error occurred"]
            enrichment_suggestions :=
              .arr [.str "Check system configuration and try again"]
            sources := prepare_sources sr.metadatas sr.distances }) ∧
    (∀ status text, status ≠ 200 →
      generate_answer loads query sr (.resp status text) =
      .ok { answer := .str ("Error calling OpenAI API: " ++
              toString status ++ " - " ++ text)
            confidence := calculate_confidence sr.distances
            missing_info := .arr [.str "API call failed"]
            enrichment_suggestions :=
              .arr [.str "Check API configuration and try again"]
            sources := prepare_sources sr.metadatas sr.distances }) ∧
    (∀ text e, extractContent loads text = .error e →
      generate_answer loads query sr (.resp 200 text) =
      .ok { answer := .str ("Error generating response: " ++ e)
            confidence := calculate_confidence sr.distances
            missing_info := .arr [.str "System error occurred"]
            enrichment_suggestions :=
              .arr [.str "Check system configuration and try again"]
            sources := prepare_sources sr.metadatas sr.distances }) ∧
    (∀ text fields, extractContent loads text = .ok (.obj fields) →
      ∃ r, generate_answer loads query sr (.resp 200 text) = .ok r) := by
  refine ⟨?_, ?_, ?_, ?_⟩
  · intro msg
    rw [generate_answer_eq loads query sr _ hne]
    rfl
  · intro status text hst
    rw [generate_answer_eq loads query sr _ hne]
    simp only [call_openai_with_completeness_check, if_neg hst]
    rfl
  · intro text e hex
    rw [generate_answer_eq loads query sr _ hne]
    simp only [call_openai_with_completeness_check, if_pos rfl, hex]
    rfl
  · intro text fields hex
    rw [generate_answer_eq loads query sr _ hne]
    simp only [call_openai_with_completeness_check, if_pos rfl, hex]
    exact ⟨_, rfl⟩

/-- Witness for C1 at a concrete one-hit search result and a concrete 500
response. -/
theorem C1_completion_failure_degrades_witness :
    generate_answer (fun _ => .error "Expecting value") "q"
        { documents := ["doc text"]
          metadatas := [{ document_id := "d1", filename := "a.txt",
                          chunk_index := 0, total_chunks := 1,
                          file_path := "u/a.txt" }]
          distances := [1] }
        (.resp 500 "Internal Server Error") =
      .ok { answer := .str ("Error calling OpenAI API: " ++
              toString 500 ++ " - " ++ "Internal Server Error")
            confidence := calculate_confidence [1]
            missing_info := .arr [.str "API call failed"]
            enrichment_suggestions :=
              .arr [.str "Check API configuration and try again"]
            sources := prepare_sources
              [{ document_id := "d1", filename := "a.txt", chunk_index := 0,
                 total_chunks := 1, file_path := "u/a.txt" }] [1] } :=
  (C1_completion_failure_degrades (fun _ => .error "Expecting value") "q"
    { documents := ["doc text"]
      metadatas := [{ document_id := "d1", filename := "a.txt",
                      chunk_index := 0, total_chunks := 1,
                      file_path := "u/a.txt" }]
      distances := [1] }
    (by simp)).2.1 500 "Internal Server Error" (by decide)

/-- Counterexample to C1 as stated: a 200 response whose body is valid
JSON and whose choices-0-message-content string is the JSON text of an
empty list.  json.loads then returns a Python list, generate_answer calls
dict.get on it, and the AttributeError escapes generate_answer. -/
theorem C1_counterexample :
    generate_answer
        (fun s =>
          if s = "\x7b\x22choices\x22: [\x7b\x22message\x22: \x7b\x22content\x22: \x22[]\x22\x7d\x7d]\x7d"
          then .ok (.obj [("choices",
                 .arr [.obj [("message", .obj [("content", .str "[]")])]])])
          else if s = "[]" then .ok (.arr [])
          else .error "Expecting value: line 1 column 1 (char 0)")
        "q"
        { documents := ["doc text"]
          metadatas := [{ document_id := "d1", filename := "a.txt",
                          chunk_index := 0, total_chunks := 1,
                          file_path := "u/a.txt" }]
          distances := [1] }
        (.resp 200
          "\x7b\x22choices\x22: [\x7b\x22message\x22: \x7b\x22content\x22: \x22[]\x22\x7d\x7d]\x7d") =
      .error "AttributeError: object has no attribute get" := by
  rfl

/-- C10: when the 200-response content parses as a JSON object, no schema
validation happens: the result takes the answer field with default empty
string and the missing_info and enrichment_suggestions fields with
default empty list, and the pipeline returns ok, never a parse error. -/
theorem C10_no_schema_validation (loads : String → Except String Json)
    (query : String) (sr : SearchResults) (hne : sr.documents ≠ [])
    (text : String) (fields : List (String × Json))
    (hparse : extractContent loads text = .ok (.obj fields)) :
    generate_answer loads query sr (.resp 200 text) =
      .ok { answer := dictGetD fields "answer" (.str "")
            confidence := calculate_confidence sr.distances
            missing_info := dictGetD fields "missing_info" (.arr [])
            enrichment_suggestions :=
              dictGetD fields "enrichment_suggestions" (.arr [])
            sources := prepare_sources sr.metadatas sr.distances } ∧
    (fields.find? (fun f => f.1 == "answer") = none →
      dictGetD fields "answer" (.str "") = .str "") ∧
    (fields.find? (fun f => f.1 == "missing_info") = none →
      dictGetD fields "missing_info" (.arr []) = .arr []) ∧
    (fields.find? (fun f => f.1 == "enrichment_suggestions") = none →
      dictGetD fields "enrichment_suggestions" (.arr []) = .arr []) := by
  refine ⟨?_, ?_, ?_, ?_⟩
  · rw [generate_answer_eq loads query sr _ hne]
    simp only [call_openai_with_completeness_check, if_pos rfl, hparse]
    rfl
  · intro hf; simp [dictGetD, hf]
  · intro hf; simp [dictGetD, hf]
  · intro hf; simp [dictGetD, hf]

/-- Witness for C10 at a concrete 200 response whose content is the empty
JSON object, so every field falls back to its default. -/
theorem C10_no_schema_validation_witness :
    generate_answer
        (fun s =>
          if s = "\x7b\x22choices\x22: [\x7b\x22message\x22: \x7b\x22content\x22: \x22\x7b\x7d\x22\x7d\x7d]\x7d"
          then .ok (.obj [("choices",
                 .arr [.obj [("message", .obj [("content", .str "\x7b\x7d")])]])])
          else if s = "\x7b\x7d" then .ok (.obj [])
          else .error "Expecting value: line 1 column 1 (char 0)")
        "q"
        { documents := ["doc text"]
          metadatas := [{ document_id := "d1", filename := "a.txt",
                          chunk_index := 0, total_chunks := 1,
                          file_path := "u/a.txt" }]
          distances := [1] }
        (.resp 200
          "\x7b\x22choices\x22: [\x7b\x22message\x22: \x7b\x22content\x22: \x22\x7b\x7d\x22\x7d\x7d]\x7d") =
      .ok { answer := dictGetD [] "answer" (.str "")
            confidence := calculate_confidence [1]
            missing_info := dictGetD [] "missing_info" (.arr [])
            enrichment_suggestions :=
              dictGetD [] "enrichment_suggestions" (.arr [])
            sources := prepare_sources
              [{ document_id := "d1", filename := "a.txt", chunk_index := 0,
                 total_chunks := 1, file_path := "u/a.txt" }] [1] } :=
  (C10_no_schema_validation
    (fun s =>
      if s = "\x7b\x22choices\x22: [\x7b\x22message\x22: \x7b\x22content\x22: \x22\x7b\x7d\x22\x7d\x7d]\x7d"
      then .ok (.obj [("choices",
             .arr [.obj [("message", .obj [("content", .str "\x7b\x7d")])]])])
      else if s = "\x7b\x7d" then .ok (.obj [])
      else .error "Expecting value: line 1 column 1 (char 0)")
    "q"
    { documents := ["doc text"]
      metadatas := [{ document_id := "d1", filename := "a.txt",
                      chunk_index := 0, total_chunks := 1,
                      file_path := "u/a.txt" }]
      distances := [1] }
    (by simp)
    "\x7b\x22choices\x22: [\x7b\x22message\x22: \x7b\x22content\x22: \x22\x7b\x7d\x22\x7d\x7d]\x7d"
    [] (by rfl)).1

/-- C5: ingestion is all-or-nothing.  A failed extraction, blank extracted
text, or an empty chunking aborts with an error and writes nothing; on
success the store receives, in one append, exactly the new chunks, whose
ids are documentId underscore index for indices 0 to totalChunks - 1. -/
theorem C5_ingest_all_or_nothing (chunk_text : String → List String)
    (generate_embeddings : List String → List (List ℚ))
    (document_id : String) (store : List StoredChunk)
    (file_path filename : String) :
    (∀ e, process_and_store_document chunk_text generate_embeddings
        document_id (.error e) store file_path filename =
        (.error filename e, store)) ∧
    (∀ text, pyStrip text = "" →
      process_and_store_document chunk_text generate_embeddings
        document_id (.ok text) store file_path filename =
        (.error filename "No text content found in the document", store)) ∧
    (∀ text, pyStrip text ≠ "" → chunk_text text = [] →
      process_and_store_document chunk_text generate_embeddings
        document_id (.ok text) store file_path filename =
        (.error filename "No chunks generated from the document", store)) ∧
    (∀ text, pyStrip text ≠ "" → chunk_text text ≠ [] →
      (process_and_store_document chunk_text generate_embeddings
          document_id (.ok text) store file_path filename).1 =
        .success document_id filename (chunk_text text).length ∧
      (process_and_store_document chunk_text generate_embeddings
          document_id (.ok text) store file_path filename).2.take store.length
        = store ∧
      ((process_and_store_document chunk_text generate_embeddings
          document_id (.ok text) store file_path filename).2.drop
            store.length).map (fun c => c.id) =
        (List.range (chunk_text text).length).map
          (fun i => document_id ++ "_" ++ toString i)) ∧
    (∀ extracted,
      (∃ f e, (process_and_store_document chunk_text generate_embeddings
          document_id extracted store file_path filename).1 = .error f e) →
      (process_and_store_document chunk_text generate_embeddings
          document_id extracted store file_path filename).2 = store) := by
  refine ⟨fun e => rfl, ?_, ?_, ?_, ?_⟩
  · intro text h
    simp [process_and_store_document, h]
  · intro text h1 h2
    simp [process_and_store_document, h1, h2]
  · intro text h1 h2
    refine ⟨?_, ?_, ?_⟩
    · simp [process_and_store_document, h1, h2]
    · simp only [process_and_store_document, if_neg h1, if_neg h2]
      exact List.take_left store _
    · simp only [process_and_store_document, if_neg h1, if_neg h2]
      rw [List.drop_left store _, List.map_map]
      refine List.map_congr_left ?_
      intro i hi
      have hilt : i < (chunk_text text).length := List.mem_range.mp hi
      simp only [Function.comp]
      rw [List.getD_eq_getElem?_getD, List.getElem?_map,
        List.getElem?_range hilt]
      rfl
  · intro extracted hfe
    obtain ⟨f, e, hfe⟩ := hfe
    match extracted with
    | .error e2 => rfl
    | .ok text =>
      by_cases h1 : pyStrip text = ""
      · simp [process_and_store_document, h1]
      · by_cases h2 : chunk_text text = []
        · simp [process_and_store_document, h1, h2]
        · exfalso
          simp [process_and_store_document, h1, h2] at hfe

/-- Witness for C5 at a concrete non-blank document producing two chunks. -/
theorem C5_ingest_all_or_nothing_witness :
    ((process_and_store_document
        (fun t => [t, t ++ "!"]) (fun l => l.map (fun _ => [0]))
        "doc-1" (.ok "hello") [] "u/h.txt" "h.txt").2.drop 0).map
      (fun c => c.id) =
      (List.range ((fun (t : String) => [t, t ++ "!"]) "hello").length).map
        (fun i => "doc-1" ++ "_" ++ toString i) := by
  have h := (C5_ingest_all_or_nothing (fun t => [t, t ++ "!"])
    (fun l => l.map (fun _ => [0])) "doc-1" [] "u/h.txt" "h.txt").2.2.2.1
    "hello" (by decide) (by simp)
  exact h.2.2

/-- The two halves of a filter partition a list by length. -/
theorem length_filter_add_length_filter_not {α : Type}
    (p : α → Bool) (l : List α) :
    (l.filter p).length + (l.filter (fun a => !p a)).length = l.length := by
  induction l with
  | nil => rfl
  | cons a t ih => by_cases h : p a <;> simp [List.filter_cons, h] <;> omega

/-- C6: deleting an unknown document id reports Document not found and
leaves the store unchanged; deleting a known id removes exactly all of
that document chunks, reducing the count by the document chunk count and
reporting success; the attempt to remove the backing file never affects
the outcome, whether the file exists or its removal fails. -/
theorem C6_delete_document (store : List StoredChunk) (document_id : String)
    (fe ro fe2 ro2 : String → Bool) :
    (store.filter (fun c => c.metadata.document_id == document_id) = [] →
      delete_document store document_id fe ro =
        (.error "Document not found", store)) ∧
    (store.filter (fun c => c.metadata.document_id == document_id) ≠ [] →
      (delete_document store document_id fe ro).2 =
        store.filter (fun c => !(c.metadata.document_id == document_id)) ∧
      (delete_document store document_id fe ro).2.length =
        store.length -
          (store.filter
            (fun c => c.metadata.document_id == document_id)).length ∧
      ∃ fn, (delete_document store document_id fe ro).1 =
        .success ("Document \x27" ++ fn ++ "\x27 deleted successfully")
          (store.filter
            (fun c => c.metadata.document_id == document_id)).length fn) ∧
    delete_document store document_id fe ro =
      delete_document store document_id fe2 ro2 := by
  refine ⟨?_, ?_, rfl⟩
  · intro h
    simp [delete_document, h]
  · intro h
    obtain ⟨c, rest, hres⟩ : ∃ c rest,
        store.filter (fun c => c.metadata.document_id == document_id) =
          c :: rest := by
      match hq : store.filter
          (fun c => c.metadata.document_id == document_id) with
      | [] => exact absurd hq h
      | c :: rest => exact ⟨c, rest, hq⟩
    have hlen := length_filter_add_length_filter_not
      (fun c => c.metadata.document_id == document_id) store
    refine ⟨?_, ?_, ?_⟩
    · simp [delete_document, hres]
    · have h2 : (delete_document store document_id fe ro).2 =
          store.filter (fun c => !(c.metadata.document_id == document_id)) := by
        simp [delete_document, hres]
      rw [h2, hres] at *
      omega
    · refine ⟨c.metadata.filename, ?_⟩
      simp [delete_document, hres]

/-- Witness for C6 at a concrete store holding one two-chunk document and
one foreign chunk, with the file present and its removal failing. -/
theorem C6_delete_document_witness :
    (delete_document
        [{ id := "d1_0", embedding := [0], document := "a",
           metadata := { document_id := "d1", filename := "a.txt",
                         chunk_index := 0, total_chunks := 2,
                         file_path := "u/a.txt" } },
         { id := "d1_1", embedding := [0], document := "b",
           metadata := { document_id := "d1", filename := "a.txt",
                         chunk_index := 1, total_chunks := 2,
                         file_path := "u/a.txt" } },
         { id := "d2_0", embedding := [0], document := "c",
           metadata := { document_id := "d2", filename := "b.txt",
                         chunk_index := 0, total_chunks := 1,
                         file_path := "u/b.txt" } }]
        "d1" (fun _ => true) (fun _ => false)).2.length = 3 - 2 := by
  have h := ((C6_delete_document
    [{ id := "d1_0", embedding := [0], document := "a",
       metadata := { document_id := "d1", filename := "a.txt",
                     chunk_index := 0, total_chunks := 2,
                     file_path := "u/a.txt" } },
     { id := "d1_1", embedding := [0], document := "b",
       metadata := { document_id := "d1", filename := "a.txt",
                     chunk_index := 1, total_chunks := 2,
                     file_path := "u/a.txt" } },
     { id := "d2_0", embedding := [0], document := "c",
       metadata := { document_id := "d2", filename := "b.txt",
                     chunk_index := 0, total_chunks := 1,
                     file_path := "u/b.txt" } }]
    "d1" (fun _ => true) (fun _ => false) (fun _ => false)
    (fun _ => true)).2.1 (by simp)).2.1
  simpa using h

/-- The document ids after one grouping step: unchanged when the id was
already present, appended at the end when first seen. -/
theorem updateEntry_map_id (acc : List DocEntry) (m : Metadata) :
    (updateEntry acc m).map (fun e => e.document_id) =
      if m.document_id ∈ acc.map (fun e => e.document_id)
      then acc.map (fun e => e.document_id)
      else acc.map (fun e => e.document_id) ++ [m.document_id] := by
  induction acc with
  | nil => simp [updateEntry, newEntry]
  | cons e rest ih =>
    by_cases h : e.document_id = m.document_id
    · have hm : m.document_id ∈ (e :: rest).map (fun e => e.document_id) := by
        simp [← h]
      rw [if_pos hm]
      simp [updateEntry, h, pushChunk]
    · simp only [updateEntry, if_neg h, List.map_cons, ih]
      by_cases hm : m.document_id ∈ rest.map (fun e => e.document_id)
      · rw [if_pos hm, if_pos (by simp [hm])]
      · rw [if_neg hm, if_neg ?_]
        · simp
        · simp only [List.map_cons, List.mem_cons]
          rintro (heq | hmem)
          · exact h heq.symm
          · exact hm hmem

/-- Every entry after one grouping step with duplicate-free ids is either
an untouched entry of a different id, the fresh entry of a first-seen id,
or the unique matching entry with the new chunk pushed. -/
theorem updateEntry_mem (acc : List DocEntry) (m : Metadata)
    (hnd : (acc.map (fun e => e.document_id)).Nodup) :
    ∀ e2 ∈ updateEntry acc m,
      (e2 ∈ acc ∧ e2.document_id ≠ m.document_id) ∨
      (m.document_id ∉ acc.map (fun e => e.document_id) ∧ e2 = newEntry m) ∨
      (∃ e0 ∈ acc, e0.document_id = m.document_id ∧ e2 = pushChunk e0 m) := by
  induction acc with
  | nil =>
    intro e2 he2
    simp only [updateEntry, List.mem_singleton] at he2
    exact Or.inr (Or.inl ⟨by simp, he2⟩)
  | cons e rest ih =>
    intro e2 he2
    simp only [updateEntry] at he2
    have hnd2 : (rest.map (fun e => e.document_id)).Nodup :=
      (List.nodup_cons.mp (by simpa using hnd)).2
    have hni : e.document_id ∉ rest.map (fun e => e.document_id) :=
      (List.nodup_cons.mp (by simpa using hnd)).1
    by_cases h : e.document_id = m.document_id
    · rw [if_pos h] at he2
      rcases List.mem_cons.mp he2 with rfl | hmem
      · exact Or.inr (Or.inr ⟨e, List.mem_cons_self e rest, h, rfl⟩)
      · refine Or.inl ⟨List.mem_cons_of_mem e hmem, fun heq => hni ?_⟩
        rw [h, ← heq]
        exact List.mem_map_of_mem _ hmem
    · rw [if_neg h] at he2
      rcases List.mem_cons.mp he2 with rfl | hmem
      · exact Or.inl ⟨List.mem_cons_self e2 rest, fun heq => h heq⟩
      · rcases ih hnd2 e2 hmem with ⟨ha, hb⟩ | ⟨ha, hb⟩ | ⟨e0, he0, ha, hb⟩
        · exact Or.inl ⟨List.mem_cons_of_mem e ha, hb⟩
        · refine Or.inr (Or.inl ⟨?_, hb⟩)
          simp only [List.map_cons, List.mem_cons]
          rintro (heq | hmem2)
          · exact h heq.symm
          · exact ha hmem2
        · exact Or.inr (Or.inr ⟨e0, List.mem_cons_of_mem e he0, ha, hb⟩)

/-- Appending one metadata extends the reconstructed chunk list of its own
document by one reference and leaves every other document unchanged. -/
theorem chunksFor_append (metas : List Metadata) (m : Metadata)
    (id : String) :
    chunksFor (metas ++ [m]) id =
      chunksFor metas id ++
        (if m.document_id == id
         then [⟨m.chunk_index, m.total_chunks⟩] else []) := by
  simp only [chunksFor, List.filter_append, List.map_append]
  cases h : m.document_id == id <;> simp [List.filter, h]

/-- The grouping loop of get_all_documents builds one entry per distinct
document id, the ids covering exactly the stored ids, and each entry
carrying exactly the chunk references of its document in store order. -/
theorem groupDocuments_spec (metas : List Metadata) :
    ((groupDocuments metas).map (fun e => e.document_id)).Nodup ∧
    (∀ id, id ∈ (groupDocuments metas).map (fun e => e.document_id) ↔
      id ∈ metas.map (fun m => m.document_id)) ∧
    (∀ e ∈ groupDocuments metas, e.chunks = chunksFor metas e.document_id) := by
  induction metas using List.reverseRecOn with
  | nil => simp [groupDocuments, chunksFor]
  | append_singleton metas m ih =>
    obtain ⟨hnd, hmem, hch⟩ := ih
    have hstep : groupDocuments (metas ++ [m]) =
        updateEntry (groupDocuments metas) m :=
      List.foldl_concat updateEntry [] m metas
    refine ⟨?_, ?_, ?_⟩
    · rw [hstep, updateEntry_map_id]
      by_cases hm : m.document_id ∈
          (groupDocuments metas).map (fun e => e.document_id)
      · rwa [if_pos hm]
      · rw [if_neg hm]
        exact hnd.append (List.nodup_singleton _)
          (List.disjoint_singleton.mpr hm)
    · intro id
      rw [hstep, updateEntry_map_id, List.map_append]
      by_cases hm : m.document_id ∈
          (groupDocuments metas).map (fun e => e.document_id)
      · rw [if_pos hm]
        rw [hmem id]
        constructor
        · intro hx
          exact List.mem_append.mpr (Or.inl hx)
        · intro hx
          rcases List.mem_append.mp hx with hx | hx
          · exact hx
          · simp only [List.map_cons, List.map_nil, List.mem_singleton] at hx
            subst hx
            exact (hmem _).mp hm
      · rw [if_neg hm]
        constructor
        · intro hx
          rcases List.mem_append.mp hx with hx | hx
          · exact List.mem_append.mpr (Or.inl ((hmem id).mp hx))
          · exact List.mem_append.mpr (Or.inr hx)
        · intro hx
          rcases List.mem_append.mp hx with hx | hx
          · exact List.mem_append.mpr (Or.inl ((hmem id).mpr hx))
          · exact List.mem_append.mpr (Or.inr hx)
    · intro e2 he2
      rw [hstep] at he2
      rcases updateEntry_mem _ m hnd e2 he2 with
        ⟨ha, hb⟩ | ⟨ha, hb⟩ | ⟨e0, he0, ha, hb⟩
      · rw [chunksFor_append, if_neg ?_, List.append_nil]
        · exact hch e2 ha
        · simp only [beq_iff_eq]
          exact fun heq => hb heq.symm
      · subst hb
        have hnm : m.document_id ∉ metas.map (fun m => m.document_id) :=
          fun hx => ha ((hmem _).mpr hx)
        have hempty : chunksFor metas m.document_id = [] := by
          simp only [chunksFor, List.map_eq_nil_iff, List.filter_eq_nil_iff]
          intro a hax
          simp only [beq_iff_eq]
          intro heq
          exact hnm (heq ▸ List.mem_map_of_mem _ hax)
        rw [chunksFor_append]
        simp [newEntry, hempty]
      · subst hb
        rw [chunksFor_append]
        simp [pushChunk, hch e0 he0, ha]

/-- C8: listDocuments groups all stored chunk metadata by document id into
one entry per document, sorts the entries by filename ascending, and each
entry carries the reconstructed chunk reference list of its document and
hence its chunk count; the totals report the entry and chunk counts. -/
theorem C8_list_documents (metas : List Metadata) :
    (get_all_documents metas).documents.Pairwise
      (fun a b => a.filename ≤ b.filename) ∧
    ((get_all_documents metas).documents.map
      (fun e => e.document_id)).Nodup ∧
    (∀ id, id ∈ (get_all_documents metas).documents.map
        (fun e => e.document_id) ↔
      id ∈ metas.map (fun m => m.document_id)) ∧
    (∀ e ∈ (get_all_documents metas).documents,
      e.chunks = chunksFor metas e.document_id ∧
      e.chunks.length = (metas.filter
        (fun m => m.document_id == e.document_id)).length) ∧
    (get_all_documents metas).total_documents =
      (get_all_documents metas).documents.length ∧
    (get_all_documents metas).total_chunks = metas.length := by
  obtain ⟨hnd, hmem, hch⟩ := groupDocuments_spec metas
  have hperm : ((groupDocuments metas).mergeSort
      (fun a b => decide (a.filename ≤ b.filename))).Perm
        (groupDocuments metas) :=
    List.mergeSort_perm _ _
  refine ⟨?_, ?_, ?_, ?_, rfl, rfl⟩
  · have hs := @List.sorted_mergeSort DocEntry
      (fun a b => decide (a.filename ≤ b.filename))
      (fun a b c hab hbc =>
        decide_eq_true
          (le_trans (of_decide_eq_true hab) (of_decide_eq_true hbc)))
      (fun a b => by
        rcases le_total a.filename b.filename with h | h
        · simp [h]
        · simp [h])
      (groupDocuments metas)
    exact hs.imp fun h => of_decide_eq_true h
  · exact ((hperm.map (fun e => e.document_id)).nodup_iff).mpr hnd
  · intro id
    have hdoc : (get_all_documents metas).documents =
        (groupDocuments metas).mergeSort
          (fun a b => decide (a.filename ≤ b.filename)) := rfl
    rw [hdoc, (hperm.map (fun e => e.document_id)).mem_iff]
    exact hmem id
  · intro e he
    have he2 : e ∈ groupDocuments metas := hperm.mem_iff.mp he
    have h1 := hch e he2
    refine ⟨h1, ?_⟩
    rw [h1]
    simp [chunksFor]

/-- Witness for C8 at a concrete store of three chunks over two documents. -/
theorem C8_list_documents_witness :
    ((get_all_documents
        [{ document_id := "d1", filename := "a.txt", chunk_index := 0,
           total_chunks := 2, file_path := "u/a.txt" },
         { document_id := "d1", filename := "a.txt", chunk_index := 1,
           total_chunks := 2, file_path := "u/a.txt" },
         { document_id := "d2", filename := "b.txt", chunk_index := 0,
           total_chunks := 1, file_path := "u/b.txt" }]).documents.map
      (fun e => e.document_id)).Nodup ∧
    ("d1" ∈ (get_all_documents
        [{ document_id := "d1", filename := "a.txt", chunk_index := 0,
           total_chunks := 2, file_path := "u/a.txt" },
         { document_id := "d1", filename := "a.txt", chunk_index := 1,
           total_chunks := 2, file_path := "u/a.txt" },
         { document_id := "d2", filename := "b.txt", chunk_index := 0,
           total_chunks := 1, file_path := "u/b.txt" }]).documents.map
      (fun e => e.document_id) ↔
     "d1" ∈ ([{ document_id := "d1", filename := "a.txt", chunk_index := 0,
                total_chunks := 2, file_path := "u/a.txt" },
              { document_id := "d1", filename := "a.txt", chunk_index := 1,
                total_chunks := 2, file_path := "u/a.txt" },
              { document_id := "d2", filename := "b.txt", chunk_index := 0,
                total_chunks := 1, file_path := "u/b.txt" }] :
        List Metadata).map (fun m => m.document_id)) :=
  ⟨(C8_list_documents
      [{ document_id := "d1", filename := "a.txt", chunk_index := 0,
         total_chunks := 2, file_path := "u/a.txt" },
       { document_id := "d1", filename := "a.txt", chunk_index := 1,
         total_chunks := 2, file_path := "u/a.txt" },
       { document_id := "d2", filename := "b.txt", chunk_index := 0,
         total_chunks := 1, file_path := "u/b.txt" }]).2.1,
   (C8_list_documents
      [{ document_id := "d1", filename := "a.txt", chunk_index := 0,
         total_chunks := 2, file_path := "u/a.txt" },
       { document_id := "d1", filename := "a.txt", chunk_index := 1,
         total_chunks := 2, file_path := "u/a.txt" },
       { document_id := "d2", filename := "b.txt", chunk_index := 0,
         total_chunks := 1, file_path := "u/b.txt" }]).2.2.1 "d1"⟩

end WeaveAI
